import Mathlib

/-!
A shallow embedding of the StaticWeb WSGI middleware
(`swift/common/middleware/staticweb.py`) and proofs about its behaviour.

The WSGI environment is modelled as an association list of string keys to
string values; the backend pipeline (`self.app`) is a function from an
environment to a response.  Each middleware operation is translated to a pure
function that returns its result together with the ordered list of
sub-request environments it handed to the backend.
-/

namespace StaticWeb

/-- A WSGI environment: an association list from keys to values. -/
abbrev Env := List (String × String)

/-- `env.get(k)`: first binding of `k`, if any. -/
def envGet (env : Env) (k : String) : Option String :=
  (env.find? (fun kv => kv.1 == k)).map (fun kv => kv.2)

/-- `env[k] = v`: replace any binding of `k` by `v`. -/
def envSet (env : Env) (k v : String) : Env :=
  (k, v) :: env.filter (fun kv => kv.1 != k)

/-- `p` is a prefix of `s` (character lists). -/
def listIsPfxOf : List Char → List Char → Bool
  | [], _ => true
  | _ :: _, [] => false
  | a :: p, b :: s => a == b && listIsPfxOf p s

/-- Python `s.startswith(p)`. -/
def pyStartsWith (s p : String) : Bool :=
  listIsPfxOf p.toList s.toList

/-- `_strip_ifs`: drop every key that starts with `HTTP_IF_`. -/
def stripIfs (env : Env) : Env :=
  env.filter (fun kv => !(pyStartsWith kv.1 "HTTP_IF_"))

/-- One element of a JSON container listing: a dict that may carry a
`subdir` key or a `name` key (with the object fields). -/
structure JsonItem where
  subdir : Option String
  name : Option String
  bytes : Nat
  content_type : String
  last_modified : String
  deriving Repr, DecidableEq

/-- A response body: either raw text or a successfully JSON-parsed listing
array (`json.loads` on anything else raises). -/
inductive Body where
  | str (s : String)
  | json (items : List JsonItem)
  deriving Repr, DecidableEq

/-- A backend response: status code, headers and body. -/
structure Resp where
  status : Nat
  headers : List (String × String)
  body : Body
  deriving Repr, DecidableEq

/-- `headers.get(k)`. -/
def headerGet (hs : List (String × String)) (k : String) : Option String :=
  (hs.find? (fun kv => kv.1 == k)).map (fun kv => kv.2)

/-- Python truthiness of an optional string: `None` and `''` are falsy. -/
def truthy : Option String → Bool
  | some s => !(s == "")
  | none => false

/-- What a WSGI callable hands back: a response, `None` (the function fell
off the end), or a raised exception. -/
inductive WRes where
  | resp (r : Resp)
  | noneRes
  | exn
  deriving Repr, DecidableEq

/-! ## The memcache client (external collaborator, get/set/delete with TTL) -/

/-- One memcache entry: key, the cached `(index, error, listing_css)`
triple, and its absolute expiry time. -/
structure CacheEntry where
  key : String
  val : String × String × String
  expiry : Nat
  deriving Repr, DecidableEq

/-- The memcache contents. -/
abbrev Cache := List CacheEntry

/-- `memcache_client.get(k)` at time `now`: present and unexpired, or a miss. -/
def cacheGet (c : Cache) (now : Nat) (k : String) : Option (String × String × String) :=
  match c.find? (fun e => e.key == k) with
  | some e => if now < e.expiry then some e.val else none
  | none => none

/-- `memcache_client.set(k, v, timeout)` at time `now`. -/
def cacheSet (c : Cache) (now : Nat) (k : String) (v : String × String × String)
    (timeout : Nat) : Cache :=
  ⟨k, v, now + timeout⟩ :: c.filter (fun e => e.key != k)

/-- `memcache_client.delete(k)`. -/
def cacheDelete (c : Cache) (k : String) : Cache :=
  c.filter (fun e => e.key != k)

/-! ## Path pieces and per-request state -/

/-- The path pieces `split_path` assigned to the request
(`self.version`, `self.account`, `self.container`, `self.obj`). -/
structure Ctx where
  version : String
  account : String
  container : String
  obj : Option String
  deriving Repr, DecidableEq

/-- The container configuration held in `self._index`, `self._error`,
`self._listing_css` (all `None` until `_get_container_info` runs). -/
structure Cfg where
  index : Option String
  error : Option String
  listing_css : Option String
  deriving Repr, DecidableEq

/-- `'/staticweb/%s/%s/%s' % (version, account, container)`. -/
def memcacheKey (ctx : Ctx) : String :=
  "/staticweb/" ++ ctx.version ++ "/" ++ ctx.account ++ "/" ++ ctx.container

/-- `'/%s/%s/%s' % (version, account, container)`. -/
def containerPath (ctx : Ctx) : String :=
  "/" ++ ctx.version ++ "/" ++ ctx.account ++ "/" ++ ctx.container

/-! ## Percent-encoding and HTML escaping -/

/-- Hex digit (upper case), as `urllib.quote` emits. -/
def hexDigit (n : Nat) : Char :=
  if n < 10 then Char.ofNat (48 + n) else Char.ofNat (55 + n)

/-- Bytes that `urllib.quote` leaves untouched: letters, digits, `_.-`
and the default safe character `/`. -/
def isSafeByte (n : Nat) : Bool :=
  (65 ≤ n && n ≤ 90) || (97 ≤ n && n ≤ 122) || (48 ≤ n && n ≤ 57) ||
  n == 95 || n == 46 || n == 45 || n == 47

/-- Quote one byte: itself when safe, else `%XX`. -/
def quoteByte (n : Nat) : String :=
  if isSafeByte n then String.singleton (Char.ofNat n)
  else "%" ++ String.singleton (hexDigit (n / 16)) ++ String.singleton (hexDigit (n % 16))

/-- UTF-8 bytes of one character. -/
def utf8Bytes (c : Char) : List Nat :=
  let n := c.toNat
  if n < 128 then [n]
  else if n < 2048 then [192 + n / 64, 128 + n % 64]
  else if n < 65536 then [224 + n / 4096, 128 + (n / 64) % 64, 128 + n % 64]
  else [240 + n / 262144, 128 + (n / 4096) % 64, 128 + (n / 64) % 64, 128 + n % 64]

/-- Concatenation of a list of strings. -/
def concatList (l : List String) : String :=
  l.foldr (fun a b => a ++ b) ""

/-- `urllib.quote(s)` (default safe set) on the UTF-8 bytes of `s`. -/
def quote (s : String) : String :=
  concatList (s.toList.map (fun c => concatList ((utf8Bytes c).map quoteByte)))

/-- Python `s.replace(c, rep)` for a one-character pattern. -/
def replaceChar (s : List Char) (c : Char) (rep : List Char) : List Char :=
  match s with
  | [] => []
  | x :: rest => (if x == c then rep else [x]) ++ replaceChar rest c rep

/-- `cgi.escape(s, quote=q)`: `&`, `<`, `>` and (with `quote=True`) `"`
replaced in that order by their entities. -/
def cgiEscape (s : String) (q : Bool) : String :=
  let l := replaceChar s.toList '&' "&amp;".toList
  let l := replaceChar l '<' "&lt;".toList
  let l := replaceChar l '>' "&gt;".toList
  String.mk (if q then replaceChar l '"' "&quot;".toList else l)

/-- Python `s.split(c)` for a one-character separator. -/
def splitChar (s : List Char) (c : Char) : List (List Char) :=
  match s with
  | [] => [[]]
  | x :: rest =>
    let r := splitChar rest c
    if x == c then [] :: r
    else
      match r with
      | h :: t => (x :: h) :: t
      | [] => [[x]]

/-- `sep.join(parts)`. -/
def joinSep (sep : String) : List String → String
  | [] => ""
  | [x] => x
  | x :: xs => x ++ sep ++ joinSep sep xs

/-- A Python whitespace character (the set `str.strip` removes). -/
def isPySpace (c : Char) : Bool :=
  c == ' ' || c == '\t' || c == '\n' || c == '\r' || c == '\x0b' || c == '\x0c'

/-- Python `s.strip()`. -/
def pyStrip (s : String) : String :=
  String.mk (((s.toList.dropWhile isPySpace).reverse.dropWhile isPySpace).reverse)

/-- Python `s[-1] == '/'` (false on the empty string). -/
def lastIsSlash (s : String) : Bool :=
  s.toList.getLast? == some '/'

/-- Lower-case one ASCII character, as Python `str.lower` does. -/
def pyLowerChar (c : Char) : Char :=
  if 65 ≤ c.toNat && c.toNat ≤ 90 then Char.ofNat (c.toNat + 32) else c

/-- Python `s.lower()` on ASCII text. -/
def pyLower (s : String) : String :=
  String.mk (s.toList.map pyLowerChar)

/-- The decimal digit character of `n < 10`. -/
def digitChar (n : Nat) : Char :=
  Char.ofNat (48 + n)

/-- Decimal digits of `n`, most significant first (`fuel` bounds recursion). -/
def natDigitsAux : Nat → Nat → List Char
  | 0, _ => []
  | f + 1, n => if n < 10 then [digitChar n] else
      natDigitsAux f (n / 10) ++ [digitChar (n % 10)]

/-- Decimal rendering of a natural number, as `'%s' % status` produces. -/
def natToStr (n : Nat) : String :=
  String.mk (natDigitsAux (n + 1) n)

/-- Python character slicing `s[n:]`. -/
def strDrop (s : String) (n : Nat) : String :=
  String.mk (s.toList.drop n)

/-- `s[len(pfx):]` applied only when a truthy listing prefix is present. -/
def stripPfxLen (pfx : Option String) (s : String) : String :=
  if truthy pfx then strDrop s (pfx.getD "").length else s

/-- Modelled from the spec: `human_readable` lives in `swift.common.utils`,
which is not under `src/`; the spec only shows that a 12-byte object renders
a human-readable count (`12 bytes`).  The exact formatting of larger sizes is
irrelevant to every claim below. -/
def human_readable (n : Nat) : String :=
  natToStr n ++ " bytes"

/-- Modelled from the spec: `TRUE_VALUES` lives in `swift.common.utils`,
which is not under `src/`; the spec describes it as the accepted encodings of
a true boolean-valued `X-Web-Mode` flag. -/
def TRUE_VALUES : List String :=
  ["true", "1", "yes", "True", "Yes", "on", "On", "t", "y"]

/-- Python `s.split('/', n)`: at most `n` splits, the last piece keeps the
remaining separators. -/
def pySplit (s : String) (n : Nat) : List String :=
  let parts := (splitChar s.toList '/').map String.mk
  if parts.length ≤ n + 1 then parts
  else parts.take n ++ [joinSep "/" (parts.drop n)]

/-- Modelled from the spec: the path classifier `split_path(path, 2, 4, True)`
lives in `swift.common.utils`, which is not under `src/`.  Per the spec it
parses 2 to 4 `/`-delimited segments after a leading `/` into
`(version, account, container?, object?)`; the fourth segment absorbs all
remaining path text including embedded `/`; fewer than 2 or more than 4
segments (or an empty version/account) is a non-fatal failure. -/
def split_path (path : String) : Option (String × String × Option String × Option String) :=
  match pySplit path 4 with
  | "" :: v :: a :: rest =>
    if v == "" || a == "" then none
    else
      match rest with
      | [] => some (v, a, none, none)
      | [c] => some (v, a, some c, none)
      | [c, o] => some (v, a, some c, some o)
      | _ => none
  | _ => none

/-! ## The listing renderer (`_listing`, lines 258-322) -/

/-- The fixed document head up to the stylesheet choice. -/
def listingHead (pathInfo : String) : String :=
  "<!DOCTYPE HTML PUBLIC \"-//W3C//DTD HTML 4.01 " ++
  "Transitional//EN\" \"http://www.w3.org/TR/html4/loose.dtd\">\n" ++
  "<html>\n" ++
  " <head>\n" ++
  "  <title>Listing of " ++ cgiEscape pathInfo false ++ "</title>\n"

/-- The stylesheet part: a link to the configured listing CSS object, or the
built-in default style block. -/
def listingStyle (ctx : Ctx) (listing_css : Option String) : String :=
  if truthy listing_css then
    "  <link rel=\"stylesheet\" type=\"text/css\" " ++
    "href=\"/" ++ ctx.version ++ "/" ++ ctx.account ++ "/" ++ ctx.container ++ "/" ++
    quote (listing_css.getD "") ++ "\" />\n"
  else
    "  <style type=\"text/css\">\n" ++
    "   h1 \x7bfont-size: 1em; font-weight: bold;\x7d\n" ++
    "   th \x7btext-align: left; padding: 0px 1em 0px 1em;\x7d\n" ++
    "   td \x7bpadding: 0px 1em 0px 1em;\x7d\n" ++
    "   a \x7btext-decoration: none;\x7d\n" ++
    "  </style>\n"

/-- The body opening: heading and table header row. -/
def listingBodyOpen (pathInfo : String) : String :=
  " </head>\n" ++
  " <body>\n" ++
  "  <h1 id=\"title\">Listing of " ++ cgiEscape pathInfo false ++ "</h1>\n" ++
  "  <table id=\"listing\">\n" ++
  "   <tr id=\"heading\">\n" ++
  "    <th class=\"colname\">Name</th>\n" ++
  "    <th class=\"colsize\">Size</th>\n" ++
  "    <th class=\"coldate\">Date</th>\n" ++
  "   </tr>\n"

/-- Everything emitted before the entry rows. -/
def listingPreamble (pathInfo : String) (ctx : Ctx) (listing_css : Option String) : String :=
  listingHead pathInfo ++ listingStyle ctx listing_css ++ listingBodyOpen pathInfo

/-- The `../` parent-directory row, emitted when a prefix is in effect. -/
def parentRow : String :=
  "   <tr id=\"parent\" class=\"item\">\n" ++
  "    <td class=\"colname\"><a href=\"../\">../</a></td>\n" ++
  "    <td class=\"colsize\">&nbsp;</td>\n" ++
  "    <td class=\"coldate\">&nbsp;</td>\n" ++
  "   </tr>\n"

/-- One subdir row, given the (possibly prefix-stripped) subdir string. -/
def subdirRow (subdir : String) : String :=
  "   <tr class=\"item subdir\">\n" ++
  "    <td class=\"colname\"><a href=\"" ++ quote subdir ++ "\">" ++
  cgiEscape subdir false ++ "</a></td>\n" ++
  "    <td class=\"colsize\">&nbsp;</td>\n" ++
  "    <td class=\"coldate\">&nbsp;</td>\n" ++
  "   </tr>\n"

/-- `cgi.escape(last_modified).split('.')[0].replace('T', ' ')`. -/
def formatDate (lm : String) : String :=
  String.mk (replaceChar ((cgiEscape lm false).toList.takeWhile (fun c => !(c == '.'))) 'T' " ".toList)

/-- One object row, given the item and its (possibly prefix-stripped) name. -/
def objectRow (item : JsonItem) (name : String) : String :=
  "   <tr class=\"item " ++
  joinSep " "
    (((splitChar item.content_type.toList '/').map String.mk).map
      (fun t => "type-" ++ cgiEscape (pyLower t) true)) ++
  "\">\n" ++
  "    <td class=\"colname\"><a href=\"" ++ quote name ++ "\">" ++
  cgiEscape name false ++ "</a></td>\n" ++
  "    <td class=\"colsize\">" ++ human_readable item.bytes ++ "</td>\n" ++
  "    <td class=\"coldate\">" ++ formatDate item.last_modified ++ "</td>\n" ++
  "   </tr>\n"

/-- The accumulation step of each `for item in listing:` loop: when `sel`
finds the dict key, append the row; otherwise leave the body unchanged. -/
def rowStep (sel : JsonItem → Option String) (row : JsonItem → String → String)
    (b : String) (item : JsonItem) : String :=
  match sel item with
  | some s => b ++ row item s
  | none => b

/-- The rendered HTML document of `_listing`: preamble, optional parent row,
then one pass over the listing appending subdir rows, then a second pass
appending object rows, then the closing tags. -/
def listingDoc (pathInfo : String) (ctx : Ctx) (cfg : Cfg) (pfx : Option String)
    (listing : List JsonItem) : String :=
  let body := listingPreamble pathInfo ctx cfg.listing_css
  let body := body ++ (if truthy pfx then parentRow else "")
  let body := listing.foldl
    (rowStep (fun i => i.subdir) (fun _ sd => subdirRow (stripPfxLen pfx sd))) body
  let body := listing.foldl
    (rowStep (fun i => i.name) (fun i nm => objectRow i (stripPfxLen pfx nm))) body
  body ++ "  </table>\n </body>\n</html>\n"

/-! ## Canned responses (webob helpers, external collaborator) -/

/-- `HTTPMovedPermanently(location=...)`: only the status and the Location
header matter to the middleware and its callers. -/
def movedPermanently (location : String) : Resp :=
  { status := 301, headers := [("Location", location)], body := .str "" }

/-- `HTTPNotFound()`: a plain 404 response. -/
def httpNotFound : Resp :=
  { status := 404, headers := [("Content-Type", "text/plain")], body := .str "404 Not Found" }

/-! ## The metadata resolver (`_get_container_info`, lines 197-233) -/

/-- The environment of the metadata HEAD sub-request: built from scratch with
only the HEAD method and the StaticWeb user agent, copying `swift.cache` and
`HTTP_X_CF_TRANS_ID` from the original environment when present, addressed to
the container root. -/
def probeEnv (ctx : Ctx) (env : Env) : Env :=
  let t : Env := [("REQUEST_METHOD", "HEAD"), ("HTTP_USER_AGENT", "StaticWeb")]
  let t := match envGet env "swift.cache" with
    | some v => t ++ [("swift.cache", v)]
    | none => t
  let t := match envGet env "HTTP_X_CF_TRANS_ID" with
    | some v => t ++ [("HTTP_X_CF_TRANS_ID", v)]
    | none => t
  t ++ [("PATH_INFO", containerPath ctx)]

/-- Result of `_get_container_info`: the configuration now held on the
middleware, the (possibly updated) memcache contents, and the sub-request
environments issued to the backend. -/
structure InfoResult where
  cfg : Cfg
  cache : Option Cache
  calls : List Env
  deriving Repr, DecidableEq

/-- `_get_container_info`: serve the config from memcache when the key is
present; otherwise issue the HEAD probe, and on 2xx extract and trim the
three `x-container-meta-*` headers and store them in memcache; any probe
failure leaves the config empty. -/
def getContainerInfo (app : Env → Resp) (ctx : Ctx) (env : Env)
    (cache : Option Cache) (now cache_timeout : Nat) : InfoResult :=
  let probe : Option Cache → InfoResult := fun cache =>
    let penv := probeEnv ctx env
    let r := app penv
    if r.status / 100 == 2 then
      let i := pyStrip ((headerGet r.headers "x-container-meta-index").getD "")
      let l := pyStrip ((headerGet r.headers "x-container-meta-listing-css").getD "")
      let e := pyStrip ((headerGet r.headers "x-container-meta-error").getD "")
      let cache := match cache with
        | some c => some (cacheSet c now (memcacheKey ctx) (i, e, l) cache_timeout)
        | none => none
      ⟨⟨some i, some e, some l⟩, cache, [penv]⟩
    else
      ⟨⟨none, none, none⟩, cache, [penv]⟩
  match cache with
  | some c =>
    match cacheGet c now (memcacheKey ctx) with
    | some (i, e, l) => ⟨⟨some i, some e, some l⟩, some c, []⟩
    | none => probe (some c)
  | none => probe none

/-! ## Error substitution (`_error_response`, lines 155-183) -/

/-- The environment of the error-page GET: the original environment with the
conditional headers stripped, the path pointed at
`/{version}/{account}/{container}/{status}{suffix}`, and the method forced to
GET. -/
def errorSubEnv (ctx : Ctx) (errSuffix : String) (status : Nat) (env : Env) : Env :=
  let t := stripIfs env
  let t := envSet t "PATH_INFO"
    (containerPath ctx ++ "/" ++ natToStr status ++ errSuffix)
  envSet t "REQUEST_METHOD" "GET"

/-- Result of an operation that ends in a concrete response. -/
structure RespResult where
  res : Resp
  calls : List Env
  deriving Repr, DecidableEq

/-- `_error_response`: without an error suffix, forward the failure response
untouched; otherwise GET the error page, and on 2xx send the error page's
body and headers under the saved original status, else forward the original
failure untouched. -/
def errorResponse (app : Env → Resp) (ctx : Ctx) (cfg : Cfg) (orig : Resp)
    (env : Env) : RespResult :=
  if !(truthy cfg.error) then ⟨orig, []⟩
  else
    let t := errorSubEnv ctx (cfg.error.getD "") orig.status env
    let r := app t
    if r.status / 100 == 2 then
      ⟨{ status := orig.status, headers := r.headers, body := r.body }, [t]⟩
    else
      ⟨orig, [t]⟩

/-! ## The listing request (`_listing`, lines 235-257 and 323) -/

/-- The query string of the listing request: JSON format, `/` delimiter, and
the percent-encoded prefix when one is given. -/
def listingQS (pfx : Option String) : String :=
  "delimiter=/&format=json" ++
  (if truthy pfx then "&prefix=" ++ quote (pfx.getD "") else "")

/-- The environment of the listing GET: conditional headers stripped, method
forced to GET, path pointed at the container root, query string as above. -/
def listingEnv (ctx : Ctx) (env : Env) (pfx : Option String) : Env :=
  let t := stripIfs env
  let t := envSet t "REQUEST_METHOD" "GET"
  let t := envSet t "PATH_INFO" (containerPath ctx)
  envSet t "QUERY_STRING" (listingQS pfx)

/-- `_listing`: issue the listing query; non-2xx goes to error substitution;
an empty listing becomes a 404 through error substitution; otherwise respond
200 with the rendered HTML document. -/
def swListing (app : Env → Resp) (ctx : Ctx) (cfg : Cfg) (env : Env)
    (pfx : Option String) : WRes × List Env :=
  let t := listingEnv ctx env pfx
  let r := app t
  if r.status / 100 != 2 then
    let er := errorResponse app ctx cfg r env
    (.resp er.res, t :: er.calls)
  else
    match r.body with
    | .str _ => (.exn, [t])
    | .json listing =>
      if listing.isEmpty then
        let er := errorResponse app ctx cfg httpNotFound env
        (.resp er.res, t :: er.calls)
      else
        (.resp { status := 200, headers := [("Content-Type", "text/html")],
                 body := .str (listingDoc ((envGet env "PATH_INFO").getD "") ctx cfg
                   pfx listing) }, [t])

/-! ## The two handlers (`_handle_container`, `_handle_object`) -/

/-- Result of a handler: the WSGI outcome, the memcache contents afterwards,
and the sub-request environments issued to the backend, in order. -/
structure HandleResult where
  res : WRes
  cache : Option Cache
  calls : List Env
  deriving Repr, DecidableEq

/-- `_handle_container` (lines 325-348): resolve metadata; without an index
forward the original request; without a trailing `/` redirect permanently to
the path with `/` appended; otherwise GET `path + index` — 404 renders the
listing, other failures go to error substitution, 2xx/3xx is forwarded. -/
def handleContainer (app : Env → Resp) (ctx : Ctx) (env : Env)
    (cache : Option Cache) (now cache_timeout : Nat) : HandleResult :=
  let info := getContainerInfo app ctx env cache now cache_timeout
  let cfg := info.cfg
  let p := (envGet env "PATH_INFO").getD ""
  if !(truthy cfg.index) then
    ⟨.resp (app env), info.cache, info.calls ++ [env]⟩
  else if !(lastIsSlash p) then
    ⟨.resp (movedPermanently (p ++ "/")), info.cache, info.calls⟩
  else
    let t := envSet env "PATH_INFO" (p ++ cfg.index.getD "")
    let r := app t
    if r.status == 404 then
      let l := swListing app ctx cfg env none
      ⟨l.1, info.cache, info.calls ++ t :: l.2⟩
    else if r.status / 100 != 2 && r.status / 100 != 3 then
      let er := errorResponse app ctx cfg r env
      ⟨.resp er.res, info.cache, info.calls ++ t :: er.calls⟩
    else
      ⟨.resp r, info.cache, info.calls ++ [t]⟩

/-- The environment of the index sub-request on the object path: the object
path with a `/` appended when absent, then the index name appended. -/
def objIndexEnv (env : Env) (index : String) : Env :=
  let p := (envGet env "PATH_INFO").getD ""
  envSet env "PATH_INFO" ((if lastIsSlash p then p else p ++ "/") ++ index)

/-- The environment of the pseudo-directory probe: conditional headers
stripped, method forced to GET, path pointed at the container root, and a
1-result JSON delimiter-scoped query with prefix `obj + '/'`. -/
def pfxProbeEnv (ctx : Ctx) (env : Env) : Env :=
  let t := stripIfs env
  let t := envSet t "REQUEST_METHOD" "GET"
  let t := envSet t "PATH_INFO" (containerPath ctx)
  envSet t "QUERY_STRING"
    ("limit=1&format=json&delimiter=/&limit=1&prefix=" ++ quote ((ctx.obj.getD "") ++ "/"))

/-- `_handle_object` (lines 350-399): issue the original request; 2xx/3xx is
forwarded; non-404 failures go to error substitution with the configuration
left over from the last `_get_container_info` call; on 404 resolve metadata,
and without an index forward the original request; otherwise GET the index at
the object path — on 2xx/3xx redirect (no trailing `/`) or forward, on 404
either probe the pseudo-directory prefix (no trailing `/`) or render the
prefix listing; any other index status falls off the end of the Python
function, which returns `None`. -/
def handleObject (app : Env → Resp) (ctx : Ctx) (env : Env)
    (cache : Option Cache) (now cache_timeout : Nat) (st0 : Cfg) : HandleResult :=
  let r := app env
  if r.status / 100 == 2 || r.status / 100 == 3 then
    ⟨.resp r, cache, [env]⟩
  else if r.status != 404 then
    let er := errorResponse app ctx st0 r env
    ⟨.resp er.res, cache, env :: er.calls⟩
  else
    let info := getContainerInfo app ctx env cache now cache_timeout
    let cfg := info.cfg
    if !(truthy cfg.index) then
      ⟨.resp (app env), info.cache, env :: info.calls ++ [env]⟩
    else
      let p := (envGet env "PATH_INFO").getD ""
      let t := objIndexEnv env (cfg.index.getD "")
      let r2 := app t
      if r2.status / 100 == 2 || r2.status / 100 == 3 then
        if !(lastIsSlash p) then
          ⟨.resp (movedPermanently (p ++ "/")), info.cache, env :: info.calls ++ [t]⟩
        else
          ⟨.resp r2, info.cache, env :: info.calls ++ [t]⟩
      else if r2.status == 404 then
        if !(lastIsSlash p) then
          let t2 := pfxProbeEnv ctx env
          let r3 := app t2
          if r3.status / 100 != 2 then
            let er := errorResponse app ctx cfg httpNotFound env
            ⟨.resp er.res, info.cache, env :: info.calls ++ t :: t2 :: er.calls⟩
          else
            match r3.body with
            | .str _ => ⟨.exn, info.cache, env :: info.calls ++ [t, t2]⟩
            | .json items =>
              if items.isEmpty then
                let er := errorResponse app ctx cfg httpNotFound env
                ⟨.resp er.res, info.cache, env :: info.calls ++ t :: t2 :: er.calls⟩
              else
                ⟨.resp (movedPermanently (p ++ "/")), info.cache,
                  env :: info.calls ++ [t, t2]⟩
        else
          let l := swListing app ctx cfg env ctx.obj
          ⟨l.1, info.cache, env :: info.calls ++ t :: l.2⟩
      else
        ⟨.noneRes, info.cache, env :: info.calls ++ [t]⟩

/-- `__call__` (lines 401-429): classify the path (pass through on failure);
with a memcache client, a PUT/POST first deletes the container's cache key
when the request addresses a container root, then passes through; non-HEAD/GET
methods and authenticated requests without `X-Web-Mode` pass through; an
object path goes to `_handle_object`, a container path to
`_handle_container`, anything else passes through. -/
def swCall (app : Env → Resp) (env : Env) (cache : Option Cache)
    (now cache_timeout : Nat) (st0 : Cfg) : HandleResult :=
  match split_path ((envGet env "PATH_INFO").getD "") with
  | none => ⟨.resp (app env), cache, [env]⟩
  | some (v, a, c, o) =>
    let ctx : Ctx := ⟨v, a, c.getD "", o⟩
    let m := (envGet env "REQUEST_METHOD").getD ""
    let rest : Option Cache → HandleResult := fun cache =>
      if !(m == "HEAD" || m == "GET") ||
          (truthy (envGet env "REMOTE_USER") &&
           !(TRUE_VALUES.contains ((envGet env "HTTP_X_WEB_MODE").getD ""))) then
        ⟨.resp (app env), cache, [env]⟩
      else if truthy o then
        handleObject app ctx env cache now cache_timeout st0
      else if truthy c then
        handleContainer app ctx env cache now cache_timeout
      else
        ⟨.resp (app env), cache, [env]⟩
    match cache with
    | some cc =>
      if m == "PUT" || m == "POST" then
        if !(truthy o) && truthy c then
          ⟨.resp (app env), some (cacheDelete cc (memcacheKey ctx)), [env]⟩
        else
          ⟨.resp (app env), some cc, [env]⟩
      else
        rest (some cc)
    | none => rest none

/-! ## Renderers written from the specification text, for comparison -/

/-- Follows the claim's words, for comparison with `listingDoc`: render one
row per entry in a single pass, so rows appear in exactly the order the
backend returned the entries. -/
def listingDocInOrder (pathInfo : String) (ctx : Ctx) (cfg : Cfg)
    (pfx : Option String) (listing : List JsonItem) : String :=
  listingPreamble pathInfo ctx cfg.listing_css ++
  (if truthy pfx then parentRow else "") ++
  concatList (listing.map (fun i =>
    match i.subdir with
    | some sd => subdirRow (stripPfxLen pfx sd)
    | none =>
      match i.name with
      | some nm => objectRow i (stripPfxLen pfx nm)
      | none => "")) ++
  "  </table>\n </body>\n</html>\n"

/-- Follows the claim's words: a subdir row whose link target is
percent-encoded from the full entry name while the display text is the
prefix-stripped name. -/
def subdirRowFullLink (full disp : String) : String :=
  "   <tr class=\"item subdir\">\n" ++
  "    <td class=\"colname\"><a href=\"" ++ quote full ++ "\">" ++
  cgiEscape disp false ++ "</a></td>\n" ++
  "    <td class=\"colsize\">&nbsp;</td>\n" ++
  "    <td class=\"coldate\">&nbsp;</td>\n" ++
  "   </tr>\n"

/-- Follows the claim's words: an object row whose link target is
percent-encoded from the full entry name while the display text is the
prefix-stripped name. -/
def objectRowFullLink (item : JsonItem) (full disp : String) : String :=
  "   <tr class=\"item " ++
  joinSep " "
    (((splitChar item.content_type.toList '/').map String.mk).map
      (fun t => "type-" ++ cgiEscape (pyLower t) true)) ++
  "\">\n" ++
  "    <td class=\"colname\"><a href=\"" ++ quote full ++ "\">" ++
  cgiEscape disp false ++ "</a></td>\n" ++
  "    <td class=\"colsize\">" ++ human_readable item.bytes ++ "</td>\n" ++
  "    <td class=\"coldate\">" ++ formatDate item.last_modified ++ "</td>\n" ++
  "   </tr>\n"

/-- Follows the claim's words, for comparison with `listingDoc`: the same
grouped document, but with every link target encoded from the entry's full
name rather than the stripped one. -/
def listingDocFullLink (pathInfo : String) (ctx : Ctx) (cfg : Cfg)
    (pfx : Option String) (listing : List JsonItem) : String :=
  listingPreamble pathInfo ctx cfg.listing_css ++
  (if truthy pfx then parentRow else "") ++
  concatList (listing.filterMap
    (fun i => i.subdir.map (fun sd => subdirRowFullLink sd (stripPfxLen pfx sd)))) ++
  concatList (listing.filterMap
    (fun i => i.name.map (fun nm => objectRowFullLink i nm (stripPfxLen pfx nm)))) ++
  "  </table>\n </body>\n</html>\n"

/-! ## Concrete fixtures used by the counterexamples and witnesses -/

/-- A container context for `/v1/acct/cont`. -/
def fixCtx : Ctx := ⟨"v1", "acct", "cont", none⟩

/-- The same container with object `dir`. -/
def fixObjCtx : Ctx := ⟨"v1", "acct", "cont", some "dir"⟩

/-- A configuration with an index and an error suffix. -/
def fixCfg : Cfg := ⟨some "index.html", some "error.html", none⟩

/-- A backend whose error-page GET always succeeds with a custom body. -/
def c1app (_env : Env) : Resp :=
  { status := 200, headers := [("Content-Type", "text/html")], body := .str "Forbidden page" }

/-- An original failure response with headers of its own. -/
def c1orig : Resp :=
  { status := 403, headers := [("X-Orig", "1")], body := .str "denied" }

/-- The original request environment of the failing object GET. -/
def c1env : Env := [("REQUEST_METHOD", "GET"), ("PATH_INFO", "/v1/acct/cont/x")]

/-- A backend for the object path: the literal object GET returns 404, the
metadata HEAD returns an index configuration, and every other request
(in particular, the index sub-request) returns 500. -/
def c2app (env : Env) : Resp :=
  if envGet env "REQUEST_METHOD" == some "HEAD" then
    { status := 200, headers := [("x-container-meta-index", "index.html")], body := .str "" }
  else if envGet env "PATH_INFO" == some "/v1/acct/cont/dir" then
    { status := 404, headers := [], body := .str "" }
  else
    { status := 500, headers := [], body := .str "" }

/-- The original request environment for object `dir`. -/
def c2env : Env := [("REQUEST_METHOD", "GET"), ("PATH_INFO", "/v1/acct/cont/dir")]

/-- An object entry. -/
def c3ItemA : JsonItem :=
  ⟨none, some "a.txt", 12, "text/plain", "2023-01-01T00:00:00.000000"⟩

/-- A subdir entry. -/
def c3ItemB : JsonItem := ⟨some "b/", none, 0, "application/directory", ""⟩

/-- An object entry under the pseudo-directory `d r/` (the space makes its
percent-encoding differ from its raw name). -/
def c4Item : JsonItem :=
  ⟨none, some "d r/a.txt", 3, "text/plain", "2023-01-01T00:00:00.000000"⟩

/-- A backend whose metadata HEAD advertises an index with surrounding
whitespace; used to drive `_handle_container` into the redirect branch. -/
def c5app (_env : Env) : Resp :=
  { status := 200, headers := [("x-container-meta-index", " index.html ")], body := .str "" }

/-- A GET of the container root without a trailing slash. -/
def c5env : Env := [("REQUEST_METHOD", "GET"), ("PATH_INFO", "/v1/acct/cont")]

/-- A POST to the container root. -/
def c6env : Env := [("REQUEST_METHOD", "POST"), ("PATH_INFO", "/v1/acct/cont")]

/-- A backend that accepts every request with a 200. -/
def c6app (_env : Env) : Resp :=
  { status := 200, headers := [], body := .str "" }

/-- A memcache holding a far-future entry for `/staticweb/v1/acct/cont`. -/
def c6cache : Cache := [⟨"/staticweb/v1/acct/cont", ("old-index", "", ""), 1000000⟩]

/-- A backend for the pseudo-directory probe scenario of `dir`: literal
object GET 404, metadata HEAD 200 with an index, index-at-`dir/index.html`
404, and the 1-result prefix listing query non-empty. -/
def c7app (env : Env) : Resp :=
  if envGet env "REQUEST_METHOD" == some "HEAD" then
    { status := 200, headers := [("x-container-meta-index", "index.html")], body := .str "" }
  else if envGet env "QUERY_STRING" ==
      some ("limit=1&format=json&delimiter=/&limit=1&prefix=dir/") then
    { status := 200, headers := [], body := .json [⟨some "dir/", none, 0, "", ""⟩] }
  else
    { status := 404, headers := [], body := .str "" }

/-- A backend whose every response is a 503, so the metadata probe fails. -/
def c8app (_env : Env) : Resp :=
  { status := 503, headers := [], body := .str "unavailable" }

/-- An anonymous GET carrying a conditional header. -/
def c9env1 : Env :=
  [("REQUEST_METHOD", "GET"), ("PATH_INFO", "/v1/acct/cont"), ("HTTP_IF_MATCH", "etag")]

/-- A HEAD of the same resource with different client headers. -/
def c9env2 : Env :=
  [("REQUEST_METHOD", "HEAD"), ("PATH_INFO", "/v1/acct/cont"), ("HTTP_RANGE", "bytes=0-1")]

/-! ## Helper lemmas -/

theorem truthy_some_of_ne {s : String} (h : s ≠ "") : truthy (some s) = true := by
  simp [truthy, h]

theorem envGet_envSet (e : Env) (k v : String) : envGet (envSet e k v) k = some v := by
  simp [envGet, envSet, List.find?]

theorem envGet_envSet_ne (e : Env) (k v k' : String) (h : k' ≠ k) :
    envGet (envSet e k v) k' = envGet e k' := by
  simp only [envGet, envSet]
  rw [List.find?_cons_of_neg]
  · induction e with
    | nil => simp
    | cons kv rest ih =>
      by_cases hk : kv.1 = k
      · simp only [List.filter]
        rw [show (kv.1 != k) = false by simp [hk]]
        rw [ih, List.find?_cons_of_neg]
        simp [hk, Ne.symm h]
      · simp only [List.filter]
        rw [show (kv.1 != k) = true by simp [hk]]
        by_cases hk' : kv.1 = k'
        · rw [List.find?_cons_of_pos, List.find?_cons_of_pos] <;> simp [hk']
        · rw [List.find?_cons_of_neg, List.find?_cons_of_neg, ih] <;> simp [hk']
  · simp [Ne.symm h]

theorem cacheGet_cacheDelete (c : Cache) (now : Nat) (k : String) :
    cacheGet (cacheDelete c k) now k = none := by
  simp only [cacheGet, cacheDelete]
  have : (c.filter (fun e => e.key != k)).find? (fun e => e.key == k) = none := by
    induction c with
    | nil => rfl
    | cons e rest ih =>
      by_cases hk : e.key = k
      · simp only [List.filter]
        rw [show (e.key != k) = false by simp [hk]]
        exact ih
      · simp only [List.filter]
        rw [show (e.key != k) = true by simp [hk]]
        rw [List.find?_cons_of_neg]
        · exact ih
        · simp [hk]
  rw [this]

theorem string_mk_toList (s : String) : String.mk s.toList = s := rfl

theorem toList_append (a b : String) : (a ++ b).toList = a.toList ++ b.toList :=
  String.data_append a b

theorem strDrop_append (a b : String) : strDrop (a ++ b) a.length = b := by
  simp only [strDrop, toList_append]
  show String.mk ((a.toList ++ b.toList).drop a.toList.length) = b
  rw [List.drop_left]
  exact string_mk_toList b

theorem concatList_append (l1 l2 : List String) :
    concatList (l1 ++ l2) = concatList l1 ++ concatList l2 := by
  induction l1 with
  | nil =>
    show concatList l2 = "" ++ concatList l2
    exact (String.empty_append _).symm
  | cons a l ih =>
    show a ++ concatList (l ++ l2) = (a ++ concatList l) ++ concatList l2
    rw [ih, String.append_assoc]

theorem quote_append (a b : String) : quote (a ++ b) = quote a ++ quote b := by
  simp only [quote, toList_append, List.map_append]
  exact concatList_append _ _

/-- The accumulating row loop of `_listing` equals the concatenation of the
rows of the matching entries, in input order. -/
theorem foldl_rowStep (l : List JsonItem) (sel : JsonItem → Option String)
    (row : JsonItem → String → String) (init : String) :
    l.foldl (rowStep sel row) init =
      init ++ concatList (l.filterMap (fun i => (sel i).map (row i))) := by
  induction l generalizing init with
  | nil => simp [concatList]
  | cons i rest ih =>
    cases h : sel i with
    | none =>
      simp only [List.foldl, List.filterMap]
      rw [h]
      simpa [rowStep, h] using ih init
    | some s =>
      simp only [List.foldl, List.filterMap]
      rw [h]
      simp only [rowStep, h, Option.map_some]
      rw [ih]
      show (init ++ row i s) ++ _ = _
      rw [String.append_assoc]
      congr 1

/-- Error substitution always preserves the original failure's status. -/
theorem errorResponse_status (app : Env → Resp) (ctx : Ctx) (cfg : Cfg)
    (orig : Resp) (env : Env) :
    (errorResponse app ctx cfg orig env).res.status = orig.status := by
  simp only [errorResponse]
  split
  · rfl
  · split <;> rfl

/-- On a cache miss (or without a cache) `_get_container_info` issues exactly
the metadata HEAD probe. -/
theorem getContainerInfo_probe_calls (app : Env → Resp) (ctx : Ctx) (env : Env)
    (cache : Option Cache) (now cto : Nat)
    (hmiss : ∀ c, cache = some c → cacheGet c now (memcacheKey ctx) = none) :
    (getContainerInfo app ctx env cache now cto).calls = [probeEnv ctx env] := by
  cases cache with
  | none =>
    simp only [getContainerInfo]
    split <;> rfl
  | some c =>
    have h := hmiss c rfl
    simp only [getContainerInfo, h]
    split <;> rfl

/-- `listingDoc` in closed form: preamble, optional parent row, all subdir
rows in input order, then all object rows in input order, then the closing
tags. -/
theorem listingDoc_structured (pathInfo : String) (ctx : Ctx) (cfg : Cfg)
    (pfx : Option String) (listing : List JsonItem) :
    listingDoc pathInfo ctx cfg pfx listing =
      listingPreamble pathInfo ctx cfg.listing_css ++
      ((if truthy pfx then parentRow else "") ++
       (concatList (listing.filterMap
          (fun i => i.subdir.map (fun sd => subdirRow (stripPfxLen pfx sd)))) ++
        (concatList (listing.filterMap
          (fun i => i.name.map (fun nm => objectRow i (stripPfxLen pfx nm)))) ++
         "  </table>\n </body>\n</html>\n"))) := by
  simp only [listingDoc, foldl_rowStep, String.append_assoc]

/-! ## Claim theorems -/

/-- C1 (counterexample): at a concrete failure whose error-page GET succeeds,
the final response carries the error page's body and the original status, but
its headers are the error page's headers, not the original failure's headers
as the claim states. -/
theorem c1_counterexample :
    truthy fixCfg.error = true ∧
    (c1app (errorSubEnv fixCtx "error.html" 403 c1env)).status / 100 = 2 ∧
    (errorResponse c1app fixCtx fixCfg c1orig c1env).res.body =
      (c1app (errorSubEnv fixCtx "error.html" 403 c1env)).body ∧
    (errorResponse c1app fixCtx fixCfg c1orig c1env).res.status = c1orig.status ∧
    (errorResponse c1app fixCtx fixCfg c1orig c1env).res.headers ≠ c1orig.headers := by
  decide

/-- C1 (amended): with no error suffix configured the original failure is
forwarded untouched; with a suffix configured, a 2xx GET of the computed
error-page path yields the error page's body and headers under the original
failure's status, and a non-2xx GET forwards the original failure
untouched. -/
theorem c1_theorem (app : Env → Resp) (ctx : Ctx) (cfg : Cfg) (orig : Resp) (env : Env) :
    (truthy cfg.error = false →
      errorResponse app ctx cfg orig env = ⟨orig, []⟩) ∧
    (truthy cfg.error = true →
      ((app (errorSubEnv ctx (cfg.error.getD "") orig.status env)).status / 100 = 2 →
        errorResponse app ctx cfg orig env =
          ⟨{ status := orig.status,
             headers := (app (errorSubEnv ctx (cfg.error.getD "") orig.status env)).headers,
             body := (app (errorSubEnv ctx (cfg.error.getD "") orig.status env)).body },
           [errorSubEnv ctx (cfg.error.getD "") orig.status env]⟩) ∧
      ((app (errorSubEnv ctx (cfg.error.getD "") orig.status env)).status / 100 ≠ 2 →
        errorResponse app ctx cfg orig env =
          ⟨orig, [errorSubEnv ctx (cfg.error.getD "") orig.status env]⟩)) := by
  refine ⟨fun h => ?_, fun h => ⟨fun h2 => ?_, fun h2 => ?_⟩⟩
  · simp [errorResponse, h]
  · simp [errorResponse, h, h2]
  · simp [errorResponse, h, h2]

/-- C1 (witness): the amended behaviour evaluated at the concrete fixture. -/
theorem c1_witness :
    errorResponse c1app fixCtx fixCfg c1orig c1env =
      ⟨{ status := 403, headers := [("Content-Type", "text/html")],
         body := .str "Forbidden page" }, [errorSubEnv fixCtx "error.html" 403 c1env]⟩ :=
  ((c1_theorem c1app fixCtx fixCfg c1orig c1env).2 (by decide)).1 (by decide)

/-- C2 (code bug): with the literal object GET returning 404 and the index
sub-request returning 500 (neither 2xx, 3xx nor 404), `_handle_object` falls
off the end of the Python function and produces no response at all — it never
reaches error substitution and no well-formed HTTP response is returned. -/
theorem c2_theorem :
    (c2app c2env).status = 404 ∧
    (c2app (objIndexEnv c2env "index.html")).status = 500 ∧
    (handleObject c2app fixObjCtx c2env none 0 300 ⟨none, none, none⟩).res = .noneRes := by
  decide

set_option maxRecDepth 100000 in
/-- C3 (counterexample): with an object entry followed by a subdir entry the
rendered document differs from the order-preserving rendering the claim
describes — the subdir row is emitted first even though the backend returned
it second. -/
theorem c3_counterexample :
    listingDoc "/v1/acct/cont/" fixCtx fixCfg none [c3ItemA, c3ItemB] ≠
    listingDocInOrder "/v1/acct/cont/" fixCtx fixCfg none [c3ItemA, c3ItemB] := by
  decide

/-- C3 (amended): the rendered listing presents all subdir rows first, in the
order the backend returned them, then all object rows, in the order the
backend returned them — entries are regrouped by kind, but never re-sorted
within a kind. -/
theorem c3_theorem (pathInfo : String) (ctx : Ctx) (cfg : Cfg)
    (pfx : Option String) (listing : List JsonItem) :
    listingDoc pathInfo ctx cfg pfx listing =
      listingPreamble pathInfo ctx cfg.listing_css ++
      ((if truthy pfx then parentRow else "") ++
       (concatList (listing.filterMap
          (fun i => i.subdir.map (fun sd => subdirRow (stripPfxLen pfx sd)))) ++
        (concatList (listing.filterMap
          (fun i => i.name.map (fun nm => objectRow i (stripPfxLen pfx nm)))) ++
         "  </table>\n </body>\n</html>\n"))) :=
  listingDoc_structured pathInfo ctx cfg pfx listing

set_option maxRecDepth 100000 in
/-- C4 (counterexample): under prefix `d r/`, the entry `d r/a.txt` is
rendered with link target `a.txt` (encoded from the stripped name), not with
a link target encoded from the full name as the claim states. -/
theorem c4_counterexample :
    listingDoc "/v1/acct/cont/d r/" fixCtx fixCfg (some "d r/") [c4Item] ≠
    listingDocFullLink "/v1/acct/cont/d r/" fixCtx fixCfg (some "d r/") [c4Item] := by
  decide

/-- C4 (amended): under a non-empty prefix both the displayed name and the
link target come from the prefix-stripped name; since percent-encoding is a
homomorphism for string concatenation, the full name's encoding is exactly
the encoded prefix followed by the link target, so stripping changes the link
target only by removing the encoded prefix segment. -/
theorem c4_theorem (pathInfo : String) (ctx : Ctx) (cfg : Cfg) (pfx : String)
    (listing : List JsonItem) (hp : pfx ≠ "") :
    (listingDoc pathInfo ctx cfg (some pfx) listing =
      listingPreamble pathInfo ctx cfg.listing_css ++
      (parentRow ++
       (concatList (listing.filterMap
          (fun i => i.subdir.map (fun sd => subdirRow (strDrop sd pfx.length)))) ++
        (concatList (listing.filterMap
          (fun i => i.name.map (fun nm => objectRow i (strDrop nm pfx.length)))) ++
         "  </table>\n </body>\n</html>\n")))) ∧
    (∀ rest : String, strDrop (pfx ++ rest) pfx.length = rest) ∧
    (∀ rest : String, quote (pfx ++ rest) = quote pfx ++ quote rest) := by
  refine ⟨?_, fun rest => strDrop_append pfx rest, fun rest => quote_append pfx rest⟩
  have ht : truthy (some pfx) = true := truthy_some_of_ne hp
  rw [listingDoc_structured]
  simp [stripPfxLen, ht]

/-- C4 (witness): the amended behaviour evaluated at a concrete prefix and
remainder whose encodings differ from their raw text. -/
theorem c4_witness :
    strDrop ("d r/" ++ "a.txt") "d r/".length = "a.txt" ∧
    quote ("d r/" ++ "a.txt") = quote "d r/" ++ quote "a.txt" := by
  have h := c4_theorem "/v1/acct/cont/d r/" fixCtx fixCfg "d r/" [c4Item] (by decide)
  exact ⟨h.2.1 "a.txt", h.2.2 "a.txt"⟩

/-- C5: on the container path, when the resolved metadata has a truthy index
and the request path lacks a trailing `/`, the response is a permanent
redirect to the path with `/` appended and no sub-request beyond metadata
resolution is issued; when no index is configured, the original request is
forwarded untouched. -/
theorem c5_theorem (app : Env → Resp) (ctx : Ctx) (env : Env) (cache : Option Cache)
    (now cto : Nat) (p : String) (hp : envGet env "PATH_INFO" = some p) :
    (truthy (getContainerInfo app ctx env cache now cto).cfg.index = false →
      handleContainer app ctx env cache now cto =
        ⟨.resp (app env), (getContainerInfo app ctx env cache now cto).cache,
         (getContainerInfo app ctx env cache now cto).calls ++ [env]⟩) ∧
    (truthy (getContainerInfo app ctx env cache now cto).cfg.index = true →
      lastIsSlash p = false →
      handleContainer app ctx env cache now cto =
        ⟨.resp (movedPermanently (p ++ "/")),
         (getContainerInfo app ctx env cache now cto).cache,
         (getContainerInfo app ctx env cache now cto).calls⟩) := by
  constructor
  · intro h
    simp [handleContainer, hp, h]
  · intro h hs
    simp [handleContainer, hp, h, hs]

/-- C5 (witness): a GET of `/v1/acct/cont` with an index configured redirects
permanently to `/v1/acct/cont/` after only the metadata probe. -/
theorem c5_witness :
    handleContainer c5app fixCtx c5env none 0 300 =
      ⟨.resp (movedPermanently ("/v1/acct/cont" ++ "/")),
       (getContainerInfo c5app fixCtx c5env none 0 300).cache,
       (getContainerInfo c5app fixCtx c5env none 0 300).calls⟩ :=
  (c5_theorem c5app fixCtx c5env none 0 300 "/v1/acct/cont" (by decide)).2
    (by decide) (by decide)

/-- C6: a PUT/POST addressed to a container root with a cache available
deletes that container's cache entry before the write is forwarded, and any
later metadata resolution against the resulting cache issues the fresh
backend HEAD probe (whatever the deleted entry's expiry was). -/
theorem c6_theorem (app : Env → Resp) (env : Env) (cc : Cache) (now cto : Nat)
    (st0 : Cfg) (p m v a : String) (c o : Option String)
    (hp : envGet env "PATH_INFO" = some p)
    (hsplit : split_path p = some (v, a, c, o))
    (hm : envGet env "REQUEST_METHOD" = some m)
    (hput : m = "PUT" ∨ m = "POST")
    (ho : truthy o = false) (hc : truthy c = true) :
    swCall app env (some cc) now cto st0 =
      ⟨.resp (app env), some (cacheDelete cc (memcacheKey ⟨v, a, c.getD "", o⟩)), [env]⟩ ∧
    (∀ (env2 : Env) (now2 : Nat),
      (getContainerInfo app ⟨v, a, c.getD "", o⟩ env2
          (some (cacheDelete cc (memcacheKey ⟨v, a, c.getD "", o⟩))) now2 cto).calls =
        [probeEnv ⟨v, a, c.getD "", o⟩ env2]) ∧
    (∀ env2 : Env,
      envGet (probeEnv ⟨v, a, c.getD "", o⟩ env2) "REQUEST_METHOD" = some "HEAD") := by
  refine ⟨?_,
    fun env2 now2 => getContainerInfo_probe_calls app _ env2 _ now2 cto
      (fun c' hc' => by cases hc'; exact cacheGet_cacheDelete cc now2 _),
    fun env2 => by
      simp only [probeEnv]
      rcases envGet env2 "swift.cache" with _ | cv <;>
        rcases envGet env2 "HTTP_X_CF_TRANS_ID" with _ | tv <;> rfl⟩
  rcases hput with h | h <;> simp [swCall, hp, hsplit, hm, h, ho, hc]

/-- C6 (witness): a POST to `/v1/acct/cont` at time 5 deletes the cache entry
even though it would only expire at time 1000000, and a resolution at time 6
issues the HEAD probe. -/
theorem c6_witness :
    swCall c6app c6env (some c6cache) 5 300 ⟨none, none, none⟩ =
      ⟨.resp (c6app c6env),
       some (cacheDelete c6cache (memcacheKey ⟨"v1", "acct", "cont", none⟩)), [c6env]⟩ ∧
    cacheGet c6cache 6 (memcacheKey ⟨"v1", "acct", "cont", none⟩) =
      some ("old-index", "", "") ∧
    (getContainerInfo c6app ⟨"v1", "acct", "cont", none⟩ c6env
        (some (cacheDelete c6cache (memcacheKey ⟨"v1", "acct", "cont", none⟩))) 6 300).calls =
      [probeEnv ⟨"v1", "acct", "cont", none⟩ c6env] := by
  have h := c6_theorem c6app c6env c6cache 5 300 ⟨none, none, none⟩ "/v1/acct/cont" "POST"
    "v1" "acct" (some "cont") none (by decide) (by decide) (by decide)
    (Or.inr rfl) (by decide) (by decide)
  exact ⟨h.1, by decide, h.2.1 c6env 6⟩

/-- C7: on the object path with the literal GET 404, no trailing separator,
a truthy index and the index sub-request 404, the engine issues the 1-result
JSON delimiter-scoped query with prefix `obj + '/'`; a 2xx non-empty result
redirects permanently to the path with `/` appended, while a failed or empty
result yields a 404 routed through error substitution. -/
theorem c7_theorem (app : Env → Resp) (ctx : Ctx) (env : Env) (cache : Option Cache)
    (now cto : Nat) (st0 : Cfg) (p : String)
    (hp : envGet env "PATH_INFO" = some p)
    (hs : lastIsSlash p = false)
    (h404 : (app env).status = 404)
    (hidx : truthy (getContainerInfo app ctx env cache now cto).cfg.index = true)
    (hidx404 : (app (objIndexEnv env
        ((getContainerInfo app ctx env cache now cto).cfg.index.getD ""))).status = 404) :
    envGet (pfxProbeEnv ctx env) "QUERY_STRING" =
      some ("limit=1&format=json&delimiter=/&limit=1&prefix=" ++
        quote ((ctx.obj.getD "") ++ "/")) ∧
    ((app (pfxProbeEnv ctx env)).status / 100 = 2 →
      ∀ items : List JsonItem, (app (pfxProbeEnv ctx env)).body = .json items →
        items ≠ [] →
        (handleObject app ctx env cache now cto st0).res =
          .resp (movedPermanently (p ++ "/"))) ∧
    ((app (pfxProbeEnv ctx env)).status / 100 ≠ 2 →
      (handleObject app ctx env cache now cto st0).res =
        .resp (errorResponse app ctx (getContainerInfo app ctx env cache now cto).cfg
          httpNotFound env).res) ∧
    ((app (pfxProbeEnv ctx env)).status / 100 = 2 →
      (app (pfxProbeEnv ctx env)).body = .json [] →
      (handleObject app ctx env cache now cto st0).res =
        .resp (errorResponse app ctx (getContainerInfo app ctx env cache now cto).cfg
          httpNotFound env).res) ∧
    (errorResponse app ctx (getContainerInfo app ctx env cache now cto).cfg
      httpNotFound env).res.status = 404 := by
  refine ⟨?_, ?_, ?_, ?_, errorResponse_status app ctx _ httpNotFound env⟩
  · simp only [pfxProbeEnv]
    exact envGet_envSet _ _ _
  · intro h2 items hb hne
    have hne' : items.isEmpty = false := by
      cases items with
      | nil => exact absurd rfl hne
      | cons a l => rfl
    simp [handleObject, hp, hs, h404, hidx, hidx404, h2, hb, hne']
  · intro h2
    simp [handleObject, hp, hs, h404, hidx, hidx404, h2]
  · intro h2 hb
    simp [handleObject, hp, hs, h404, hidx, hidx404, h2, hb]

/-- C7 (witness): GET of `/v1/acct/cont/dir` with object 404, index 404 and a
non-empty 1-result prefix listing redirects permanently to
`/v1/acct/cont/dir/`. -/
theorem c7_witness :
    (handleObject c7app fixObjCtx c2env none 0 300 ⟨none, none, none⟩).res =
      .resp (movedPermanently ("/v1/acct/cont/dir" ++ "/")) := by
  have h := c7_theorem c7app fixObjCtx c2env none 0 300 ⟨none, none, none⟩
    "/v1/acct/cont/dir" (by decide) (by decide) (by decide) (by decide) (by decide)
  exact h.2.1 (by decide) [⟨some "dir/", none, 0, "", ""⟩] (by decide) (by decide)

/-- C8: when the metadata HEAD probe fails (non-2xx), resolution yields the
empty configuration, the cache is left untouched, and the container handler
forwards the original request to the backend unchanged. -/
theorem c8_theorem (app : Env → Resp) (ctx : Ctx) (env : Env) (cache : Option Cache)
    (now cto : Nat)
    (hmiss : ∀ c, cache = some c → cacheGet c now (memcacheKey ctx) = none)
    (hfail : (app (probeEnv ctx env)).status / 100 ≠ 2) :
    (getContainerInfo app ctx env cache now cto).cfg = ⟨none, none, none⟩ ∧
    (getContainerInfo app ctx env cache now cto).cache = cache ∧
    (handleContainer app ctx env cache now cto).res = .resp (app env) := by
  have hinfo : getContainerInfo app ctx env cache now cto =
      ⟨⟨none, none, none⟩, cache, [probeEnv ctx env]⟩ := by
    cases cache with
    | none => simp [getContainerInfo, hfail]
    | some c =>
      have h := hmiss c rfl
      simp [getContainerInfo, h, hfail]
  refine ⟨by rw [hinfo], by rw [hinfo], ?_⟩
  simp [handleContainer, hinfo, truthy]

/-- C8 (witness): a backend answering 503 to everything leaves all three
features disabled and the original container GET forwarded unchanged. -/
theorem c8_witness :
    (getContainerInfo c8app fixCtx c5env none 7 300).cfg = ⟨none, none, none⟩ ∧
    (handleContainer c8app fixCtx c5env none 7 300).res = .resp (c8app c5env) := by
  have h := c8_theorem c8app fixCtx c5env none 7 300 (fun c hc => nomatch hc) (by decide)
  exact ⟨h.1, h.2.2⟩

/-- C9: the metadata HEAD probe environment is identical for any two original
environments that agree on the two whitelisted keys, it carries the HEAD
method and the StaticWeb user agent, and every binding it contains is the
method, the user agent, the probe path, or a whitelisted key copied verbatim
from the original environment. -/
theorem c9_theorem (ctx : Ctx) (env1 env2 : Env)
    (h1 : envGet env1 "swift.cache" = envGet env2 "swift.cache")
    (h2 : envGet env1 "HTTP_X_CF_TRANS_ID" = envGet env2 "HTTP_X_CF_TRANS_ID") :
    probeEnv ctx env1 = probeEnv ctx env2 ∧
    envGet (probeEnv ctx env1) "REQUEST_METHOD" = some "HEAD" ∧
    envGet (probeEnv ctx env1) "HTTP_USER_AGENT" = some "StaticWeb" ∧
    (∀ k v : String, (k, v) ∈ probeEnv ctx env1 →
      (k = "REQUEST_METHOD" ∧ v = "HEAD") ∨
      (k = "HTTP_USER_AGENT" ∧ v = "StaticWeb") ∨
      (k = "PATH_INFO" ∧ v = containerPath ctx) ∨
      ((k = "swift.cache" ∨ k = "HTTP_X_CF_TRANS_ID") ∧ envGet env1 k = some v)) := by
  refine ⟨by simp only [probeEnv, h1, h2], ?_, ?_, ?_⟩
  · simp only [probeEnv]
    rcases envGet env1 "swift.cache" with _ | cv <;>
      rcases envGet env1 "HTTP_X_CF_TRANS_ID" with _ | tv <;> rfl
  · simp only [probeEnv]
    rcases envGet env1 "swift.cache" with _ | cv <;>
      rcases envGet env1 "HTTP_X_CF_TRANS_ID" with _ | tv <;> rfl
  · intro k v hkv
    simp only [probeEnv] at hkv
    rcases hc : envGet env1 "swift.cache" with _ | cv <;> rw [hc] at hkv <;>
      rcases ht : envGet env1 "HTTP_X_CF_TRANS_ID" with _ | tv <;> rw [ht] at hkv <;>
        simp only [List.cons_append, List.nil_append, List.singleton_append,
          List.mem_cons, List.not_mem_nil, or_false, Prod.mk.injEq] at hkv
    · rcases hkv with ⟨rfl, rfl⟩ | ⟨rfl, rfl⟩ | ⟨rfl, rfl⟩
      · exact Or.inl ⟨rfl, rfl⟩
      · exact Or.inr (Or.inl ⟨rfl, rfl⟩)
      · exact Or.inr (Or.inr (Or.inl ⟨rfl, rfl⟩))
    · rcases hkv with ⟨rfl, rfl⟩ | ⟨rfl, rfl⟩ | ⟨rfl, rfl⟩ | ⟨rfl, rfl⟩
      · exact Or.inl ⟨rfl, rfl⟩
      · exact Or.inr (Or.inl ⟨rfl, rfl⟩)
      · exact Or.inr (Or.inr (Or.inr ⟨Or.inr rfl, ht⟩))
      · exact Or.inr (Or.inr (Or.inl ⟨rfl, rfl⟩))
    · rcases hkv with ⟨rfl, rfl⟩ | ⟨rfl, rfl⟩ | ⟨rfl, rfl⟩ | ⟨rfl, rfl⟩
      · exact Or.inl ⟨rfl, rfl⟩
      · exact Or.inr (Or.inl ⟨rfl, rfl⟩)
      · exact Or.inr (Or.inr (Or.inr ⟨Or.inl rfl, hc⟩))
      · exact Or.inr (Or.inr (Or.inl ⟨rfl, rfl⟩))
    · rcases hkv with ⟨rfl, rfl⟩ | ⟨rfl, rfl⟩ | ⟨rfl, rfl⟩ | ⟨rfl, rfl⟩ | ⟨rfl, rfl⟩
      · exact Or.inl ⟨rfl, rfl⟩
      · exact Or.inr (Or.inl ⟨rfl, rfl⟩)
      · exact Or.inr (Or.inr (Or.inr ⟨Or.inl rfl, hc⟩))
      · exact Or.inr (Or.inr (Or.inr ⟨Or.inr rfl, ht⟩))
      · exact Or.inr (Or.inr (Or.inl ⟨rfl, rfl⟩))

/-- C9 (witness): a GET carrying `If-Match` and a HEAD carrying `Range`
produce the identical metadata probe environment. -/
theorem c9_witness :
    probeEnv fixCtx c9env1 = probeEnv fixCtx c9env2 ∧
    envGet c9env1 "HTTP_IF_MATCH" = some "etag" ∧
    envGet c9env2 "REQUEST_METHOD" = some "HEAD" := by
  have h := c9_theorem fixCtx c9env1 c9env2 (by decide) (by decide)
  exact ⟨h.1, by decide, by decide⟩

/-- C10: the error-page GET, the listing query and the pseudo-directory
prefix probe are all issued with request method GET, whatever the original
request's method was. -/
theorem c10_theorem (ctx : Ctx) (env : Env) (es : String) (st : Nat)
    (pfx : Option String) :
    envGet (errorSubEnv ctx es st env) "REQUEST_METHOD" = some "GET" ∧
    envGet (listingEnv ctx env pfx) "REQUEST_METHOD" = some "GET" ∧
    envGet (pfxProbeEnv ctx env) "REQUEST_METHOD" = some "GET" := by
  refine ⟨?_, ?_, ?_⟩
  · simp only [errorSubEnv]
    exact envGet_envSet _ _ _
  · simp only [listingEnv]
    rw [envGet_envSet_ne _ _ _ _ (by decide), envGet_envSet_ne _ _ _ _ (by decide)]
    exact envGet_envSet _ _ _
  · simp only [pfxProbeEnv]
    rw [envGet_envSet_ne _ _ _ _ (by decide), envGet_envSet_ne _ _ _ _ (by decide)]
    exact envGet_envSet _ _ _

end StaticWeb
